import Mathlib

/-!
Verification development for the Natron Plug-in Manager core
(`src/plugins.h`, `src/pluginviewwidget.cpp`).

The repository ships the class declaration `plugins.h` (including the inline
comparator `Plugins::comparePluginsOrder`) and the widget implementation
`pluginviewwidget.cpp`.  The bodies of the `Plugins` member functions live in a
`plugins.cpp` that is not part of the sources; wherever such a body is needed
it is modelled from the specification, and its doc comment says so.

Qt types are embedded as follows: `QString` as `String`, `QUrl` as `String`,
`QDateTime` as `Int` (epoch offset), `double` as `Rat`, `std::vector` as
`List`.  Filesystem state is embedded as the list of existing readable paths.
-/

namespace NatronPluginManager

/-- Constant `DEFAULT_ICON` from plugins.h. -/
def DEFAULT_ICON : String := ":/NatronPluginManager.png"

/-- Constant `MANIFEST_TAG_ROOT` from plugins.h. -/
def MANIFEST_TAG_ROOT : String := "repo"

/-- Embedding of `Plugins::PluginSpecs` (plugins.h lines 55-65), with the C++ in-class
default values. -/
structure PluginSpecs where
  id : String := ""
  label : String := ""
  version : Rat := 0
  icon : String := ""
  group : String := ""
  desc : String := ""
  path : String := ""
  folder : String := ""
  writable : Bool := true
deriving Repr, DecidableEq

/-- Embedding of `Plugins::RepoSpecs` (plugins.h lines 67-78), with the C++ in-class
default values (`QDateTime` default embedded as epoch 0). -/
structure RepoSpecs where
  version : Rat := 1
  label : String := ""
  id : String := ""
  url : String := ""
  manifest : String := ""
  logo : String := ""
  zip : String := ""
  checksum : String := ""
  modified : Int := 0
  enabled : Bool := false
deriving Repr, DecidableEq

/-- Embedding of `Plugins::PluginStatus` (plugins.h lines 80-83). -/
structure PluginStatus where
  success : Bool := false
  message : String := ""
deriving Repr, DecidableEq

/-- Embedding of `Plugins::PluginType` (plugins.h lines 85-90). -/
inductive PluginType where
  | NATRON_PLUGIN_TYPE_NONE
  | NATRON_PLUGIN_TYPE_AVAILABLE
  | NATRON_PLUGIN_TYPE_INSTALLED
  | NATRON_PLUGIN_TYPE_UPDATE
deriving Repr, DecidableEq

/-- Lexicographic comparison of character lists by code point: the embedding
of `QString::operator<`. -/
def charListLtB : List Char → List Char → Bool
  | [], [] => false
  | [], _ :: _ => true
  | _ :: _, [] => false
  | a :: as, b :: bs =>
    if a.val.toNat < b.val.toNat then true
    else if b.val.toNat < a.val.toNat then false
    else charListLtB as bs

/-- Embedding of `QString::operator<` on `String`. -/
def strLtB (a b : String) : Bool := charListLtB a.data b.data

/-- Embedding of `Plugins::comparePluginsOrder` (plugins.h lines 192-196): the sort
comparator used for the plugin catalogs.  It compares the `label` fields
only; no other field takes part. -/
def comparePluginsOrder (a b : PluginSpecs) : Bool :=
  strLtB a.label b.label

/-- Modelled from the spec: the scan sorts the catalog with
`comparePluginsOrder` (the `std::sort` call is in the missing `plugins.cpp`).
`insortPlugin p l` inserts `p` into the already sorted list `l` in front of
the first element `q` for which `comparePluginsOrder q p` fails, so the
resulting sort is stable with respect to the source comparator. -/
def insortPlugin (p : PluginSpecs) : List PluginSpecs → List PluginSpecs
  | [] => [p]
  | q :: qs => if comparePluginsOrder q p then q :: insortPlugin p qs else p :: q :: qs

/-- Modelled from the spec: stable insertion sort of a plugin catalog using
the source comparator `comparePluginsOrder`. -/
def sortPlugins : List PluginSpecs → List PluginSpecs
  | [] => []
  | x :: xs => insortPlugin x (sortPlugins xs)

/-- Modelled from the spec: `Plugins::scanForAvailablePlugins` walks a folder
tree, builds one `PluginSpecs` per candidate plugin folder and sorts the
catalog with `comparePluginsOrder` (its body is in the missing `plugins.cpp`).
The filesystem walk and metadata extraction are abstracted into the `found`
argument (the list of specs read from disk, in discovery order); `append`
merging and notification emission are omitted, no claim depends on them. -/
def scanForAvailablePlugins (found : List PluginSpecs) : List PluginSpecs :=
  sortPlugins found

/-- Adjacent entries of a catalog are in non-decreasing `label` order: the
comparator never orders a later entry strictly before an earlier one.  This is
exactly what `std::sort` with `comparePluginsOrder` guarantees. -/
def labelSorted : List PluginSpecs → Prop
  | a :: b :: rest => comparePluginsOrder b a = false ∧ labelSorted (b :: rest)
  | _ => True

/-- The ordering the claim asserts: adjacent entries have strictly increasing
labels, or equal labels with ids in non-decreasing order. -/
def claimOrderedB : List PluginSpecs → Bool
  | a :: b :: rest =>
      (strLtB a.label b.label ||
        (a.label == b.label && !(strLtB b.id a.id))) && claimOrderedB (b :: rest)
  | _ => true

theorem charListLtB_asymm :
    ∀ as bs, charListLtB as bs = true → charListLtB bs as = false := by
  intro as
  induction as with
  | nil =>
    intro bs h
    cases bs with
    | nil => simp [charListLtB] at h
    | cons b bs => simp [charListLtB]
  | cons a as ih =>
    intro bs h
    cases bs with
    | nil => simp [charListLtB] at h
    | cons b bs =>
      by_cases h1 : a.val.toNat < b.val.toNat
      · have h2 : ¬ b.val.toNat < a.val.toNat := Nat.lt_asymm h1
        simp [charListLtB, h1, h2]
      · by_cases h2 : b.val.toNat < a.val.toNat
        · simp [charListLtB, h1, h2] at h
        · simp [charListLtB, h1, h2] at h ⊢
          exact ih bs h

theorem comparePluginsOrder_asymm (a b : PluginSpecs)
    (h : comparePluginsOrder a b = true) : comparePluginsOrder b a = false :=
  charListLtB_asymm _ _ h

theorem insortPlugin_labelSorted (p : PluginSpecs) :
    ∀ l : List PluginSpecs, labelSorted l → labelSorted (insortPlugin p l) := by
  intro l
  induction l with
  | nil => intro _; trivial
  | cons q qs ih =>
    intro hs
    by_cases h : comparePluginsOrder q p = true
    · have hrest : labelSorted (insortPlugin p qs) := by
        apply ih
        cases qs with
        | nil => trivial
        | cons r rs => exact hs.2
      rw [insortPlugin, if_pos h]
      cases hqs : insortPlugin p qs with
      | nil => trivial
      | cons r rs =>
        refine ⟨?_, by simpa [hqs] using hrest⟩
        -- the head of `insortPlugin p qs` is either `p` or the head of `qs`
        cases qs with
        | nil =>
          simp [insortPlugin] at hqs
          rw [← hqs.1]
          exact comparePluginsOrder_asymm q p h
        | cons s ss =>
          by_cases h2 : comparePluginsOrder s p = true
          · simp [insortPlugin, if_pos h2] at hqs
            rw [← hqs.1]
            exact hs.1
          · simp [insortPlugin, if_neg h2] at hqs
            rw [← hqs.1]
            exact comparePluginsOrder_asymm q p h
    · rw [insortPlugin, if_neg h]
      exact ⟨Bool.eq_false_iff.mpr h, hs⟩

theorem sortPlugins_labelSorted (l : List PluginSpecs) :
    labelSorted (sortPlugins l) := by
  induction l with
  | nil => trivial
  | cons x xs ih => exact insortPlugin_labelSorted x (sortPlugins xs) ih

/-- C1 (amended): every scanned catalog is sorted by `label` ascending, in
the weak sense that adjacent entries have non-decreasing labels.  (The stated
tie-break by `id` does not hold, see the counterexample.) -/
theorem C1_scan_catalog_label_sorted (found : List PluginSpecs) :
    labelSorted (scanForAvailablePlugins found) :=
  sortPlugins_labelSorted found

/-- C1 counterexample: `comparePluginsOrder` compares labels only, so a scan
of two plugins sharing the label "A" with ids "z" and "a" (in that discovery
order) keeps them in that order, violating the claimed id tie-break. -/
theorem C1_counterexample :
    claimOrderedB (scanForAvailablePlugins
      [{ id := "z", label := "A" }, { id := "a", label := "A" }]) = false := by
  decide

/-- The parts of the `Plugins` object state the catalog claims depend on: the
two catalogs (`_availablePlugins`, `_installedPlugins`, plugins.h lines
186-187), together with the filesystem embedded as the list of existing
readable paths. -/
structure PluginsModel where
  availablePlugins : List PluginSpecs := []
  installedPlugins : List PluginSpecs := []
  fsPaths : List String := []
deriving Repr, DecidableEq

/-- Look a plugin up by `id` in one catalog. -/
def findPlugin (catalog : List PluginSpecs) (id : String) : Option PluginSpecs :=
  catalog.find? (fun p => p.id == id)

/-- Modelled from the spec: `Plugins::hasAvailablePlugin` (declared plugins.h
line 103, body in the missing plugins.cpp) — the id is present in the
available catalog. -/
def hasAvailablePlugin (m : PluginsModel) (id : String) : Bool :=
  (findPlugin m.availablePlugins id).isSome

/-- Modelled from the spec: `Plugins::hasInstalledPlugin` (declared plugins.h
line 104, body in the missing plugins.cpp). -/
def hasInstalledPlugin (m : PluginsModel) (id : String) : Bool :=
  (findPlugin m.installedPlugins id).isSome

/-- Modelled from the spec: `Plugins::getAvailablePlugin` (declared plugins.h
line 107); a miss yields a default-constructed `PluginSpecs`. -/
def getAvailablePlugin (m : PluginsModel) (id : String) : PluginSpecs :=
  (findPlugin m.availablePlugins id).getD {}

/-- Modelled from the spec: `Plugins::getInstalledPlugin` (declared plugins.h
line 108). -/
def getInstalledPlugin (m : PluginsModel) (id : String) : PluginSpecs :=
  (findPlugin m.installedPlugins id).getD {}

/-- Modelled from the spec: `Plugins::getPlugin` (declared plugins.h line
106) — looks the id up in the available catalog first, then the installed
one. -/
def getPlugin (m : PluginsModel) (id : String) : PluginSpecs :=
  if hasAvailablePlugin m id then getAvailablePlugin m id
  else if hasInstalledPlugin m id then getInstalledPlugin m id
  else {}

/-- Modelled from the spec: `Plugins::isValidPlugin` (declared plugins.h line
123) — a plugin is valid iff its `id` is non-empty and its declared path
exists and is readable. -/
def isValidPlugin (m : PluginsModel) (p : PluginSpecs) : Bool :=
  (p.id != "") && m.fsPaths.contains p.path

/-- Modelled from the spec: the derived `PluginType` classification, a pure
function recomputed from the two catalogs — `UPDATE` when the id is in both
with a strictly newer available version, `AVAILABLE` when only available,
`INSTALLED` when only installed, `NONE` when in neither. -/
def pluginType (m : PluginsModel) (id : String) : PluginType :=
  if hasAvailablePlugin m id && hasInstalledPlugin m id then
    if (getInstalledPlugin m id).version < (getAvailablePlugin m id).version then
      .NATRON_PLUGIN_TYPE_UPDATE
    else
      .NATRON_PLUGIN_TYPE_INSTALLED
  else if hasAvailablePlugin m id then .NATRON_PLUGIN_TYPE_AVAILABLE
  else if hasInstalledPlugin m id then .NATRON_PLUGIN_TYPE_INSTALLED
  else .NATRON_PLUGIN_TYPE_NONE

/-- C2: the derived classification is UPDATE for an id in both catalogs with
a strictly greater available version, AVAILABLE for an id only in the
available catalog, INSTALLED for one only in the installed catalog, and NONE
for an unknown id. -/
theorem C2_pluginType_classification (m : PluginsModel) (id : String) :
    (hasAvailablePlugin m id = true → hasInstalledPlugin m id = true →
      (getInstalledPlugin m id).version < (getAvailablePlugin m id).version →
      pluginType m id = .NATRON_PLUGIN_TYPE_UPDATE) ∧
    (hasAvailablePlugin m id = true → hasInstalledPlugin m id = false →
      pluginType m id = .NATRON_PLUGIN_TYPE_AVAILABLE) ∧
    (hasAvailablePlugin m id = false → hasInstalledPlugin m id = true →
      pluginType m id = .NATRON_PLUGIN_TYPE_INSTALLED) ∧
    (hasAvailablePlugin m id = false → hasInstalledPlugin m id = false →
      pluginType m id = .NATRON_PLUGIN_TYPE_NONE) := by
  refine ⟨?_, ?_, ?_, ?_⟩
  · intro h1 h2 h3
    simp [pluginType, h1, h2, h3]
  · intro h1 h2
    simp [pluginType, h1, h2]
  · intro h1 h2
    simp [pluginType, h1, h2]
  · intro h1 h2
    simp [pluginType, h1, h2]

/-- Catalogs containing the claim's example (available `{id:"A", version:2}`
against installed `{id:"A", version:1}`) plus one id per remaining case. -/
def exampleBothCatalogs : PluginsModel :=
  { availablePlugins := [{ id := "A", version := 2 }, { id := "B", version := 1 }],
    installedPlugins := [{ id := "A", version := 1 }, { id := "C", version := 1 }] }

theorem C2_pluginType_classification_witness :
    pluginType exampleBothCatalogs ("A") = .NATRON_PLUGIN_TYPE_UPDATE ∧
    pluginType exampleBothCatalogs ("B") = .NATRON_PLUGIN_TYPE_AVAILABLE ∧
    pluginType exampleBothCatalogs ("C") = .NATRON_PLUGIN_TYPE_INSTALLED ∧
    pluginType exampleBothCatalogs ("D") = .NATRON_PLUGIN_TYPE_NONE :=
  ⟨(C2_pluginType_classification exampleBothCatalogs ("A")).1
      (by decide) (by decide) (by decide),
   (C2_pluginType_classification exampleBothCatalogs ("B")).2.1
      (by decide) (by decide),
   (C2_pluginType_classification exampleBothCatalogs ("C")).2.2.1
      (by decide) (by decide),
   (C2_pluginType_classification exampleBothCatalogs ("D")).2.2.2
      (by decide) (by decide)⟩

/-- Enabled/hidden state of one `QPushButton`. -/
structure ButtonState where
  enabled : Bool := false
  hidden : Bool := true
deriving Repr, DecidableEq

/-- The mutable state of `PluginViewWidget` touched by `showPlugin`
(pluginviewwidget.cpp): the remembered current id `_id`, the title and group
labels, the icon pixmap (embedded as the path of the image shown), the
description browser's html, and the three buttons (with the disabled/hidden
initial state set in the constructor, lines 95-101). -/
structure WidgetState where
  currentId : String := ""
  titleLabel : String := ""
  groupLabel : String := ""
  iconPixmap : String := DEFAULT_ICON
  descHtml : String := ""
  installButton : ButtonState := {}
  removeButton : ButtonState := {}
  updateButton : ButtonState := {}
deriving Repr, DecidableEq

/-- Icon choice of `showPlugin` (pluginviewwidget.cpp lines 158-167): the
default pixmap, replaced by `path/icon` when the plugin declares an icon and
the file exists (pixmap decoding is assumed to succeed on existing files). -/
def pluginIconPixmap (m : PluginsModel) (plugin : PluginSpecs) : String :=
  let pluginIconPath := plugin.path ++ "/" ++ plugin.icon
  if plugin.icon != "" && m.fsPaths.contains pluginIconPath then pluginIconPath
  else DEFAULT_ICON

/-- Embedding of `QString::simplified`: strip leading/trailing whitespace and collapse
internal whitespace runs to single spaces. -/
def qStringSimplified (s : String) : String :=
  String.intercalate (" ") ((s.split (fun c => c.isWhitespace)).filter (fun w => w != ""))

/-- Description rendering of `showPlugin` (pluginviewwidget.cpp lines
169-177): replace literal `\n` escapes with `<br>`, drop remaining
backslashes, simplify, fall back to a placeholder when empty.  The final
URL-anchoring `QRegExp` replacement is embedded as the identity; no claim
depends on the rendered links. -/
def renderPluginDesc (desc : String) : String :=
  let d := qStringSimplified ((desc.replace ("\\n") ("<br>")).replace ("\\") (""))
  if d == "" then "<p>No description available.</p>" else d

/-- Embedding of `PluginViewWidget::setPluginStatus` (pluginviewwidget.cpp lines 186-226).
The C++ `int type` parameter is embedded as `PluginType`; the `default`
switch case coincides with the `NATRON_PLUGIN_TYPE_NONE` case. -/
def setPluginStatus (m : PluginsModel) (id : String) (type : PluginType)
    (w : WidgetState) : WidgetState :=
  let plugin := getPlugin m id
  if !(isValidPlugin m plugin) then w
  else if plugin.id != id || id != w.currentId then w
  else
    match type with
    | .NATRON_PLUGIN_TYPE_AVAILABLE =>
      { w with installButton := { enabled := true, hidden := false },
               removeButton := { enabled := false, hidden := true },
               updateButton := { enabled := false, hidden := true } }
    | .NATRON_PLUGIN_TYPE_INSTALLED =>
      { w with installButton := { enabled := false, hidden := true },
               removeButton := { enabled := true, hidden := false },
               updateButton := { enabled := false, hidden := true } }
    | .NATRON_PLUGIN_TYPE_UPDATE =>
      { w with installButton := { enabled := false, hidden := true },
               removeButton := { enabled := true, hidden := false },
               updateButton := { enabled := true, hidden := false } }
    | .NATRON_PLUGIN_TYPE_NONE =>
      { w with installButton := { enabled := false, hidden := true },
               removeButton := { enabled := false, hidden := true },
               updateButton := { enabled := false, hidden := true } }

/-- Embedding of `PluginViewWidget::showPlugin` (pluginviewwidget.cpp lines 148-184).
The `_plugins` collaborator may be null, hence the `Option`; `id.isEmpty()`
is embedded as equality with the empty string. -/
def showPlugin (plugins : Option PluginsModel) (id : String)
    (w : WidgetState) : WidgetState :=
  match plugins with
  | none => w
  | some m =>
    if id == "" then w
    else
      let plugin := getPlugin m id
      if !(isValidPlugin m plugin) then w
      else
        let w1 := { w with currentId := id,
                           titleLabel := plugin.label,
                           groupLabel := plugin.group,
                           iconPixmap := pluginIconPixmap m plugin,
                           descHtml := renderPluginDesc plugin.desc }
        if hasAvailablePlugin m plugin.id then
          setPluginStatus m plugin.id .NATRON_PLUGIN_TYPE_AVAILABLE w1
        else if hasInstalledPlugin m plugin.id then
          setPluginStatus m plugin.id .NATRON_PLUGIN_TYPE_INSTALLED w1
        else w1

theorem getAvailablePlugin_id (m : PluginsModel) (id : String)
    (h : hasAvailablePlugin m id = true) : (getAvailablePlugin m id).id = id := by
  unfold hasAvailablePlugin at h
  unfold getAvailablePlugin
  cases hf : findPlugin m.availablePlugins id with
  | none => rw [hf] at h; simp at h
  | some p =>
    have hp := List.find?_some hf
    have : p.id = id := by simpa using hp
    simpa [hf] using this

theorem getPlugin_eq_available (m : PluginsModel) (id : String)
    (h : hasAvailablePlugin m id = true) :
    getPlugin m id = getAvailablePlugin m id := by
  simp [getPlugin, h]

/-- C9: for an id present in both catalogs (and resolving to a valid plugin),
`showPlugin` takes the available-catalog branch first and therefore reaches
the AVAILABLE state — install button enabled and shown, remove and update
buttons disabled and hidden; the UPDATE state is not reached. -/
theorem C9_showPlugin_both_catalogs_available (m : PluginsModel) (id : String)
    (w : WidgetState)
    (hA : hasAvailablePlugin m id = true)
    (hI : hasInstalledPlugin m id = true)
    (hV : isValidPlugin m (getPlugin m id) = true)
    (hid : id ≠ "") :
    (showPlugin (some m) id w).installButton = { enabled := true, hidden := false } ∧
    (showPlugin (some m) id w).removeButton = { enabled := false, hidden := true } ∧
    (showPlugin (some m) id w).updateButton = { enabled := false, hidden := true } := by
  have hpid : (getPlugin m id).id = id := by
    rw [getPlugin_eq_available m id hA]
    exact getAvailablePlugin_id m id hA
  have hbeq : (id == "") = false := by
    simpa using hid
  have _hI := hI
  simp only [showPlugin, hbeq, Bool.false_eq_true, if_false, hV, Bool.not_true,
    hpid, hA, if_true, setPluginStatus]
  simp [hV, hpid]

/-- Concrete plugins model with id "A" in both catalogs and an existing
available-plugin path, for the C9 witness. -/
def exampleWidgetModel : PluginsModel :=
  { availablePlugins := [{ id := "A", label := "Alpha", version := 2, path := "/repo/A" }],
    installedPlugins := [{ id := "A", label := "Alpha", version := 1, path := "/plugins/A" }],
    fsPaths := ["/repo/A", "/plugins/A"] }

theorem C9_showPlugin_both_catalogs_available_witness :
    (showPlugin (some exampleWidgetModel) ("A") {}).installButton
        = { enabled := true, hidden := false } ∧
    (showPlugin (some exampleWidgetModel) ("A") {}).removeButton
        = { enabled := false, hidden := true } ∧
    (showPlugin (some exampleWidgetModel) ("A") {}).updateButton
        = { enabled := false, hidden := true } :=
  C9_showPlugin_both_catalogs_available exampleWidgetModel ("A") {}
    (by decide) (by decide) (by decide) (by decide)

/-- C10: when the plugins collaborator is null, the id is empty, or the id
does not resolve to a valid plugin, `showPlugin` leaves the whole widget
state unchanged. -/
theorem C10_showPlugin_frame (plugins : Option PluginsModel) (id : String)
    (w : WidgetState)
    (h : plugins = none ∨ id = "" ∨
      ∀ m, plugins = some m → isValidPlugin m (getPlugin m id) = false) :
    showPlugin plugins id w = w := by
  match plugins with
  | none => rfl
  | some m =>
    rcases h with h | h | h
    · exact absurd h (by simp)
    · simp [showPlugin, h]
    · have hv := h m rfl
      by_cases hid : (id == "") = true
      · simp [showPlugin, hid]
      · simp [showPlugin, hid, hv]

theorem C10_showPlugin_frame_witness :
    showPlugin none ("x") {} = ({} : WidgetState) :=
  C10_showPlugin_frame none ("x") {} (Or.inl rfl)

/-- Modelled from the spec: `Plugins::extractPluginArchive` (declared
plugins.h lines 141-143, body in the missing plugins.cpp).  The archive is a
byte list, the hash function an explicit argument, the target folder the list
of paths it contains, `entries` the paths the archive would extract.  A
non-empty expected checksum that differs from the computed hash fails before
anything is written; extraction into a fresh temporary folder, package
validation and the atomic promote are condensed into the final branch, which
either rejects an empty package or adds all entries at once.  The result is
the returned `PluginStatus` paired with the target folder left behind. -/
def extractPluginArchive (hashFn : List Nat → String) (archive : List Nat)
    (entries : List String) (folderContents : List String) (checksum : String) :
    PluginStatus × List String :=
  if checksum != "" && hashFn archive != checksum then
    ({ success := false, message := "Checksum mismatch" }, folderContents)
  else if entries.isEmpty then
    ({ success := false, message := "Invalid package" }, folderContents)
  else
    ({ success := true }, folderContents ++ entries)

/-- C3: with a non-empty expected checksum, a computed hash that differs from
it makes `extractPluginArchive` return an unsuccessful status and leave the
target folder exactly as it was — nothing is extracted. -/
theorem C3_extract_checksum_mismatch (hashFn : List Nat → String)
    (archive : List Nat) (entries folderContents : List String)
    (checksum : String)
    (hne : checksum ≠ "") (hmm : hashFn archive ≠ checksum) :
    (extractPluginArchive hashFn archive entries folderContents checksum).1.success = false ∧
    (extractPluginArchive hashFn archive entries folderContents checksum).2 = folderContents := by
  simp [extractPluginArchive, hne, hmm]

theorem C3_extract_checksum_mismatch_witness :
    (extractPluginArchive (fun b => toString b.length) [0, 1, 2] ["a.py"] ["old.py"]
        ("deadbeef")).1.success = false ∧
    (extractPluginArchive (fun b => toString b.length) [0, 1, 2] ["a.py"] ["old.py"]
        ("deadbeef")).2 = ["old.py"] :=
  C3_extract_checksum_mismatch (fun b => toString b.length) [0, 1, 2] ["a.py"] ["old.py"]
    ("deadbeef") (by decide) (by decide)

/-- Modelled from the spec: `Plugins::removePlugin` (declared plugins.h line
139, body in the missing plugins.cpp).  It resolves the plugin's folder via
the installed catalog, refuses when the folder is under a read-only system
path (`PluginSpecs.writable` false), and otherwise deletes the folder tree.
The result is the returned `PluginStatus` paired with the filesystem left
behind. -/
def removePlugin (m : PluginsModel) (id : String) : PluginStatus × List String :=
  if !(hasInstalledPlugin m id) then
    ({ success := false, message := "Plugin not found" }, m.fsPaths)
  else
    let plugin := getInstalledPlugin m id
    if !plugin.writable then
      ({ success := false, message := "Plugin folder is not writable" }, m.fsPaths)
    else
      ({ success := true }, m.fsPaths.filter (fun q => q != plugin.path))

/-- C8: removing an installed plugin whose folder is not writable returns an
unsuccessful status and leaves the filesystem unchanged. -/
theorem C8_removePlugin_not_writable (m : PluginsModel) (id : String)
    (hI : hasInstalledPlugin m id = true)
    (hW : (getInstalledPlugin m id).writable = false) :
    (removePlugin m id).1.success = false ∧ (removePlugin m id).2 = m.fsPaths := by
  simp [removePlugin, hI, hW]

/-- Concrete model with one non-writable installed plugin, for the C8
witness. -/
def exampleSystemPluginModel : PluginsModel :=
  { installedPlugins := [{ id := "S", label := "Sys", path := "/usr/share/Natron/S",
                           writable := false }],
    fsPaths := ["/usr/share/Natron/S"] }

theorem C8_removePlugin_not_writable_witness :
    (removePlugin exampleSystemPluginModel ("S")).1.success = false ∧
    (removePlugin exampleSystemPluginModel ("S")).2 = ["/usr/share/Natron/S"] :=
  C8_removePlugin_not_writable exampleSystemPluginModel ("S") (by decide) (by decide)

/-- Modelled from the spec: the download coordinator state — the pending
`_downloadQueue` (plugins.h line 189), the single in-flight transfer (the
queue is strictly serialized, so at most one URL is active), and the log of
completion outcomes in delivery order. -/
structure DownloadState where
  downloadQueue : List String := []
  activeDownload : Option String := none
  completedOrder : List String := []
deriving Repr, DecidableEq

/-- Modelled from the spec: appending one URL to the FIFO queue. -/
def enqueueDownload (url : String) (st : DownloadState) : DownloadState :=
  { st with downloadQueue := st.downloadQueue ++ [url] }

/-- Modelled from the spec: `Plugins::startDownloads` (declared plugins.h
line 200, body in the missing plugins.cpp) — when no transfer is active, the
head of the queue becomes the active transfer. -/
def startDownloads (st : DownloadState) : DownloadState :=
  match st.activeDownload with
  | some _ => st
  | none =>
    match st.downloadQueue with
    | [] => st
    | url :: rest => { st with activeDownload := some url, downloadQueue := rest }

/-- Modelled from the spec: completion of the in-flight transfer
(`handleFileDownloaded` / `handleDownloadError`, plugins.h lines 201-202) —
the outcome is delivered for the active URL and the next queued entry, if
any, is started immediately. -/
def completeDownload (st : DownloadState) : DownloadState :=
  match st.activeDownload with
  | none => st
  | some url =>
    startDownloads { st with activeDownload := none,
                             completedOrder := st.completedOrder ++ [url] }

/-- Enqueue a list of URLs in order. -/
def enqueueAll (urls : List String) (st : DownloadState) : DownloadState :=
  urls.foldl (fun s u => enqueueDownload u s) st

/-- Run `n` completions. -/
def completeAll : Nat → DownloadState → DownloadState
  | 0, st => st
  | n + 1, st => completeAll n (completeDownload st)

/-- Number of transfers currently reporting progress. -/
def activeCount (st : DownloadState) : Nat :=
  match st.activeDownload with
  | some _ => 1
  | none => 0

theorem enqueueAll_queue (urls : List String) :
    ∀ st : DownloadState, enqueueAll urls st =
      { st with downloadQueue := st.downloadQueue ++ urls } := by
  induction urls with
  | nil => intro st; simp [enqueueAll]
  | cons u us ih =>
    intro st
    show enqueueAll us (enqueueDownload u st) = _
    rw [ih (enqueueDownload u st)]
    simp [enqueueDownload]

theorem completeAll_drain (q : List String) :
    ∀ (u : String) (c : List String),
      completeAll (q.length + 1) { downloadQueue := q, activeDownload := some u,
                                   completedOrder := c } =
      { downloadQueue := [], activeDownload := none, completedOrder := c ++ u :: q } := by
  induction q with
  | nil =>
    intro u c
    simp [completeAll, completeDownload, startDownloads]
  | cons v vs ih =>
    intro u c
    show completeAll (vs.length + 1)
        (completeDownload { downloadQueue := v :: vs, activeDownload := some u,
                            completedOrder := c }) = _
    have hstep : completeDownload { downloadQueue := v :: vs, activeDownload := some u,
                                    completedOrder := c } =
        { downloadQueue := vs, activeDownload := some v, completedOrder := c ++ [u] } := by
      simp [completeDownload, startDownloads]
    rw [hstep, ih v (c ++ [u])]
    simp

/-- C4: URLs enqueued in order [X, Y, Z, ...] into an idle empty coordinator
complete in that same order; at most one transfer is ever active; and a
completion that leaves the queue non-empty immediately hands the next entry
to the active slot. -/
theorem C4_download_queue_fifo (urls : List String) :
    (completeAll urls.length
        (startDownloads (enqueueAll urls {}))).completedOrder = urls ∧
    (∀ st : DownloadState, activeCount st ≤ 1) ∧
    (∀ st : DownloadState, st.activeDownload.isSome = true →
      (completeDownload st).activeDownload = none →
      (completeDownload st).downloadQueue = []) := by
  refine ⟨?_, ?_, ?_⟩
  · rw [enqueueAll_queue urls {}]
    cases urls with
    | nil => simp [completeAll, startDownloads]
    | cons u us =>
      have hstart : startDownloads { downloadQueue := ([] : List String) ++ u :: us,
                                     activeDownload := none, completedOrder := [] } =
          { downloadQueue := us, activeDownload := some u, completedOrder := [] } := by
        simp [startDownloads]
      rw [show ({} : DownloadState).downloadQueue ++ u :: us = ([] : List String) ++ u :: us from rfl]
      rw [hstart]
      have := completeAll_drain us u []
      simp only [List.length_cons]
      rw [this]
      simp
  · intro st
    cases h : st.activeDownload <;> simp [activeCount, h]
  · intro st hsome hnone
    cases h : st.activeDownload with
    | none => rw [h] at hsome; simp at hsome
    | some u =>
      cases hq : st.downloadQueue with
      | nil => simp [completeDownload, h, startDownloads, hq]
      | cons v vs =>
        exfalso
        simp [completeDownload, h, startDownloads, hq] at hnone

theorem C4_download_queue_fifo_witness :
    (completeAll 3 (startDownloads (enqueueAll ["X", "Y", "Z"] {}))).completedOrder
        = ["X", "Y", "Z"] ∧
    (completeDownload { downloadQueue := ([] : List String),
                        activeDownload := some ("X"),
                        completedOrder := [] }).downloadQueue = [] := by
  constructor
  · have h := (C4_download_queue_fifo ["X", "Y", "Z"]).1
    simpa using h
  · exact (C4_download_queue_fifo []).2.2
      { downloadQueue := [], activeDownload := some ("X"), completedOrder := [] }
      (by decide) (by decide)

/-- The manifest parse error taxonomy from the spec. -/
inductive ParseError where
  | UnsupportedVersion
  | MalformedManifest
  | EmptyManifest
deriving Repr, DecidableEq

/-- Modelled from the spec: the input document as seen by `readManifest`
after lexing.  `QDomDocument`-style lexing of the raw text is abstracted: an
empty or whitespace-only text is `blank`, text that does not lex as a
structured document is `malformed`, and any other text is its root element —
tag, declared schema version (already converted to a number, `none` when the
version attribute is missing or non-numeric) and field/value pairs. -/
inductive ManifestDocument where
  | blank
  | malformed
  | element (tag : String) (version : Option Rat) (fields : List (String × String))
deriving Repr, DecidableEq

/-- First value bound to `key` in a field list, or the empty string. -/
def lookupField (fields : List (String × String)) (key : String) : String :=
  match fields.find? (fun kv => kv.1 == key) with
  | some kv => kv.2
  | none => ""

/-- Modelled from the spec: `Plugins::getManifestVersion` (declared plugins.h
line 167, body in the missing plugins.cpp) — the root-level version
attribute, 0 when absent or non-numeric (the `QString::toDouble` failure
value). -/
def getManifestVersion : ManifestDocument → Rat
  | .element _ (some v) _ => v
  | _ => 0

/-- Modelled from the spec: `Plugins::parseManifestV1` (declared plugins.h
line 169, body in the missing plugins.cpp) — v1 field extraction into a
`RepoSpecs`.  `modified` is parsed with the fixed `yyyy-MM-dd HH:mm` format,
abstracted as the `parseTs` argument; an unparsable timestamp degrades to
epoch 0 instead of failing the manifest. -/
def parseManifestV1 (parseTs : String → Option Int)
    (fields : List (String × String)) : RepoSpecs :=
  { version := 1,
    label := lookupField fields ("title"),
    url := lookupField fields ("url"),
    manifest := lookupField fields ("manifest"),
    logo := lookupField fields ("logo"),
    zip := lookupField fields ("zip"),
    checksum := lookupField fields ("checksum"),
    modified := (parseTs (lookupField fields ("modified"))).getD 0 }

/-- Modelled from the spec: `Plugins::readManifest` (declared plugins.h line
164, body in the missing plugins.cpp) — classify blank and malformed
documents, require the `repo` root tag, dispatch on the declared schema
version (only v1 is supported), and require the v1 `title` and `url`
fields. -/
def readManifest (parseTs : String → Option Int) :
    ManifestDocument → Except ParseError RepoSpecs
  | .blank => .error .EmptyManifest
  | .malformed => .error .MalformedManifest
  | .element tag version fields =>
    if tag != MANIFEST_TAG_ROOT then .error .MalformedManifest
    else if getManifestVersion (.element tag version fields) != 1 then
      .error .UnsupportedVersion
    else
      let specs := parseManifestV1 parseTs fields
      if specs.label == "" || specs.url == "" then .error .MalformedManifest
      else .ok specs

/-- C5: manifest parsing is total — every document yields either a
`RepoSpecs` whose required v1 fields (title as `label`, `url`) are populated,
or one of the three classified parse errors; no other outcome exists. -/
theorem C5_readManifest_total (parseTs : String → Option Int)
    (doc : ManifestDocument) :
    (∃ specs, readManifest parseTs doc = .ok specs ∧
      specs.label ≠ "" ∧ specs.url ≠ "") ∨
    (∃ e, readManifest parseTs doc = .error e) := by
  cases doc with
  | blank => exact .inr ⟨.EmptyManifest, rfl⟩
  | malformed => exact .inr ⟨.MalformedManifest, rfl⟩
  | element tag version fields =>
    cases h1 : (tag != MANIFEST_TAG_ROOT) with
    | true => exact .inr ⟨.MalformedManifest, by simp [readManifest, h1]⟩
    | false =>
      cases h2 : (getManifestVersion (.element tag version fields) != 1) with
      | true => exact .inr ⟨.UnsupportedVersion, by simp [readManifest, h1, h2]⟩
      | false =>
        cases h3 : ((parseManifestV1 parseTs fields).label == "" ||
            (parseManifestV1 parseTs fields).url == "") with
        | true => exact .inr ⟨.MalformedManifest, by simp [readManifest, h1, h2, h3]⟩
        | false =>
          left
          refine ⟨parseManifestV1 parseTs fields,
            by simp [readManifest, h1, h2, h3], ?_, ?_⟩
          · have := (Bool.or_eq_false_iff.mp h3).1
            simpa using this
          · have := (Bool.or_eq_false_iff.mp h3).2
            simpa using this

/-- The persisted shape of one repository entry (spec §6): a record with the
fields {version, label, id, url, manifest, logo, zip, checksum, modified,
enabled}. -/
structure RepoRecord where
  version : Rat := 1
  label : String := ""
  id : String := ""
  url : String := ""
  manifest : String := ""
  logo : String := ""
  zip : String := ""
  checksum : String := ""
  modified : Int := 0
  enabled : Bool := false
deriving Repr, DecidableEq

/-- The external settings collaborator's state: the ordered list stored under
the `repositories` settings key. -/
structure SettingsStore where
  repositories : List RepoRecord := []
deriving Repr, DecidableEq

/-- Encoding of one `RepoSpecs` into its persisted record. -/
def encodeRepo (r : RepoSpecs) : RepoRecord :=
  { version := r.version, label := r.label, id := r.id, url := r.url,
    manifest := r.manifest, logo := r.logo, zip := r.zip,
    checksum := r.checksum, modified := r.modified, enabled := r.enabled }

/-- Decoding of one persisted record; an entry without the `id` persistence
key is corrupt and yields `none` (dropped by the load, which must not fail
as a whole). -/
def decodeRepo (rec : RepoRecord) : Option RepoSpecs :=
  if rec.id == "" then none
  else some { version := rec.version, label := rec.label, id := rec.id,
              url := rec.url, manifest := rec.manifest, logo := rec.logo,
              zip := rec.zip, checksum := rec.checksum,
              modified := rec.modified, enabled := rec.enabled }

/-- Modelled from the spec: `Plugins::loadRepositories` (declared plugins.h
line 146, body in the missing plugins.cpp) — read the persisted ordered list,
dropping corrupt entries individually. -/
def loadRepositories (st : SettingsStore) : List RepoSpecs :=
  st.repositories.filterMap decodeRepo

/-- Modelled from the spec: `Plugins::saveRepositories` (declared plugins.h
line 147, body in the missing plugins.cpp) — write the list as the ordered
persisted records. -/
def saveRepositories (repos : List RepoSpecs) : SettingsStore :=
  { repositories := repos.map encodeRepo }

theorem decodeRepo_encodeRepo (r : RepoSpecs) (h : r.id ≠ "") :
    decodeRepo (encodeRepo r) = some r := by
  simp [decodeRepo, encodeRepo, h]

theorem loadRepositories_id_ne (st : SettingsStore) :
    ∀ r ∈ loadRepositories st, r.id ≠ "" := by
  intro r hr
  unfold loadRepositories at hr
  obtain ⟨rec, hrec, hdec⟩ := List.mem_filterMap.mp hr
  by_cases h : rec.id = ""
  · simp [decodeRepo, h] at hdec
  · simp [decodeRepo, h] at hdec
    rw [← hdec]
    simpa using h

theorem filterMap_decode_of_encode (l : List RepoSpecs) (h : ∀ r ∈ l, r.id ≠ "") :
    (l.map encodeRepo).filterMap decodeRepo = l := by
  induction l with
  | nil => rfl
  | cons r rs ih =>
    have h1 : decodeRepo (encodeRepo r) = some r :=
      decodeRepo_encodeRepo r (h r (by simp))
    simp only [List.map_cons, List.filterMap_cons, h1]
    rw [ih (fun x hx => h x (by simp [hx]))]

/-- C6: saving the loaded repository list and loading again yields the same
ordered list — persistence round-trips on loaded state. -/
theorem C6_repositories_roundtrip (st : SettingsStore) :
    loadRepositories (saveRepositories (loadRepositories st)) = loadRepositories st := by
  have h := loadRepositories_id_ne st
  show ((loadRepositories st).map encodeRepo).filterMap decodeRepo = loadRepositories st
  exact filterMap_decode_of_encode (loadRepositories st) h

/-- Modelled from the spec: the orchestrator state the re-entrancy claim
depends on — the `_isWorking` and `_isDownloading` flags (plugins.h lines
184-185) and the repository/catalog state a refresh cycle may mutate. -/
structure OrchestratorState where
  isWorking : Bool := false
  isDownloading : Bool := false
  availableRepositories : List RepoSpecs := []
  availablePlugins : List PluginSpecs := []
deriving Repr, DecidableEq

/-- Modelled from the spec: `Plugins::isBusy` (declared plugins.h line 159,
body in the missing plugins.cpp) — a checking/downloading cycle is in
progress. -/
def isBusy (st : OrchestratorState) : Bool :=
  st.isWorking || st.isDownloading

/-- The exit path a checking/downloading cycle takes; a successful cycle
carries the refreshed repository list and available catalog. -/
inductive CycleOutcome where
  | success (repos : List RepoSpecs) (plugins : List PluginSpecs)
  | failure
  | cancelled
deriving Repr, DecidableEq

/-- Modelled from the spec: the start of a checking/downloading cycle — the
working and downloading flags are acquired on entry. -/
def beginCheckCycle (st : OrchestratorState) : OrchestratorState :=
  { st with isWorking := true, isDownloading := true }

/-- Modelled from the spec: the end of a cycle — both flags are released on
every exit path (success, failure, cancellation); only a successful cycle
commits the refreshed repository list and available catalog. -/
def endCheckCycle (outcome : CycleOutcome) (st : OrchestratorState) : OrchestratorState :=
  match outcome with
  | .success repos plugins =>
    { st with isWorking := false, isDownloading := false,
              availableRepositories := repos, availablePlugins := plugins }
  | .failure => { st with isWorking := false, isDownloading := false }
  | .cancelled => { st with isWorking := false, isDownloading := false }

/-- Modelled from the spec: `Plugins::checkRepositories` (declared plugins.h
lines 148-149, body in the missing plugins.cpp) — a request arriving while
the module is busy is rejected outright (logged, neither queued nor allowed
to touch any state); otherwise the cycle runs from flag acquisition to the
given outcome. -/
def checkRepositories (outcome : CycleOutcome) (st : OrchestratorState) : OrchestratorState :=
  if isBusy st then st
  else endCheckCycle outcome (beginCheckCycle st)

/-- C7: a `checkRepositories` request against a busy module leaves the state
exactly as it was (rejected, not queued, nothing mutated); a cycle acquires
the flags at its start; and whatever exit path the cycle takes, the module is
not busy once `checkRepositories` returns. -/
theorem C7_checkRepositories_busy_guard (st : OrchestratorState) (outcome : CycleOutcome) :
    (isBusy st = true → checkRepositories outcome st = st) ∧
    (isBusy (beginCheckCycle st) = true) ∧
    (isBusy st = false → isBusy (checkRepositories outcome st) = false) := by
  refine ⟨?_, ?_, ?_⟩
  · intro h
    simp [checkRepositories, h]
  · simp [beginCheckCycle, isBusy]
  · intro h
    simp only [checkRepositories, h, Bool.false_eq_true, if_false]
    cases outcome <;> simp [endCheckCycle, beginCheckCycle, isBusy]

theorem C7_checkRepositories_busy_guard_witness :
    checkRepositories .failure { isWorking := true } =
      ({ isWorking := true } : OrchestratorState) ∧
    isBusy (checkRepositories .failure {}) = false :=
  ⟨(C7_checkRepositories_busy_guard { isWorking := true } .failure).1 (by decide),
   (C7_checkRepositories_busy_guard {} .failure).2.2 (by decide)⟩

end NatronPluginManager
